import Mathlib

/-!
Verification development for the zarai-radar agricultural advisory system.

This file gives a shallow embedding, in Lean 4, of the query-routing,
multi-domain retrieval and hybrid risk-scoring core of the repository:

* `RAG/intent_detector.py`   — keyword/pattern based domain detection;
* `RAG/domain_retrievers.py` — per-domain retrievers and the retrieval
  orchestrator that re-ranks evidence by vector score and keyword overlap;
* `RAG/hybrib_assess.py`     — continuous-scoring rule matchers and the
  hybrid risk assessment;
* `App/data/climate_risk_rules.py` — the declarative climate risk rule
  table and its evaluator;
* `RAG/orchestrator_agent.py` — the error-handling branch of the
  reasoning loop's `process_query`.

Numeric values are modelled as `ℚ` (the Python code computes with floats;
all properties proved here are threshold comparisons and exact divisions
that are rounding-robust at every concrete input used below, and the
places where float rounding could in principle matter are noted inline).
External collaborators (the vector similarity search, the LLM synthesis
call, the agent executor) are modelled as explicit function/`Except`
parameters, the knowledge-base JSON (not part of the source tree) as a
list parameter.  Python dicts with a fixed key set are modelled as
structures; `dict.get` with a default becomes `Option.getD`.
-/

/-! ### String primitives

Python's `in` on strings is substring containment, `str.lower` maps
ASCII letters to lower case (all inputs considered here are ASCII).
-/

/-- Lower-case a list of characters (model of Python `str.lower` on ASCII text). -/
def lowerL (s : List Char) : List Char := s.map Char.toLower

/-- Substring containment on character lists (model of Python `needle in hay`). -/
def isSubstr (needle hay : List Char) : Bool :=
  hay.tails.any (fun t => needle.isPrefixOf t)

/-- Substring containment on strings. -/
def isSubstrS (needle hay : String) : Bool := isSubstr needle.data hay.data

/-- The characters matched by Python's regex class `\s` (ASCII portion). -/
def isSpacePy (c : Char) : Bool :=
  c = ' ' || c = '\t' || c = '\n' || c = '\r' || c = '\x0b' || c = '\x0c'

/-- Python `str.strip()`: remove leading and trailing whitespace (ASCII
portion). -/
def pyStrip (s : String) : String :=
  ⟨((s.data.dropWhile isSpacePy).reverse.dropWhile isSpacePy).reverse⟩

/-! ### A miniature regex engine

The source code uses `re.search` with a small, fixed family of patterns:
alternations of literal words glued by `\s+`/`\s*`, one-character
classes, optional characters, and one-or-more character classes
(`\d+`, `[\d.]+`).  The type `RE` covers exactly these shapes and
`reSearch` decides whether a pattern matches anywhere in the input,
which is all `re.search`'s truthiness is used for.
-/

/-- Abstract syntax of the regex fragment used by the source. -/
inductive RE where
  /-- a literal character sequence -/
  | lit : List Char → RE
  /-- exactly one character satisfying the class predicate -/
  | cls : (Char → Bool) → RE
  /-- one or more characters satisfying the class predicate (e.g. `\d+`) -/
  | plusC : (Char → Bool) → RE
  /-- zero or more characters satisfying the class predicate (e.g. `\s*`) -/
  | starC : (Char → Bool) → RE
  /-- zero or one character satisfying the class predicate (e.g. `[- ]?`) -/
  | opt : (Char → Bool) → RE
  /-- concatenation -/
  | seq : RE → RE → RE
  /-- alternation -/
  | alt : RE → RE → RE

/-- Remainders after consuming exactly one class character. -/
def clsRems (p : Char → Bool) : List Char → List (List Char)
  | [] => []
  | c :: rest => if p c then [rest] else []

/-- Remainders after consuming one or more class characters. -/
def plusRems (p : Char → Bool) : List Char → List (List Char)
  | [] => []
  | c :: rest => if p c then rest :: plusRems p rest else []

/-- All remainders of `s` after matching a prefix of `s` against the pattern. -/
def mat : RE → List Char → List (List Char)
  | .lit l, s => if l.isPrefixOf s then [s.drop l.length] else []
  | .cls p, s => clsRems p s
  | .plusC p, s => plusRems p s
  | .starC p, s => s :: plusRems p s
  | .opt p, s => s :: clsRems p s
  | .seq a b, s => (mat a s).flatMap (mat b)
  | .alt a b, s => mat a s ++ mat b s

/-- Model of `re.search(r, s)` truthiness: the pattern matches somewhere in `s`. -/
def reSearch (r : RE) (s : List Char) : Bool :=
  s.tails.any (fun t => !(mat r t).isEmpty)

/-- A literal word pattern. -/
def reWord (s : String) : RE := RE.lit s.data

/-- Left-nested alternation of a head pattern and further patterns. -/
def reAlts (p : RE) (ps : List RE) : RE := ps.foldl RE.alt p

/-- Alternation of literal words, e.g. `(fusarium|head|blight)`. -/
def reWords (s : String) (rest : List String) : RE := reAlts (reWord s) (rest.map reWord)

/-- Left-nested concatenation of a head pattern and further patterns. -/
def reSeq (p : RE) (ps : List RE) : RE := ps.foldl RE.seq p

/-- The pattern `\s+`. -/
def reWs : RE := RE.plusC isSpacePy

/-- The pattern `\s*`. -/
def reWsStar : RE := RE.starC isSpacePy

/-- The pattern `\d+`. -/
def reDigits : RE := RE.plusC Char.isDigit

/-! ### Intent detection (`RAG/intent_detector.py`)

`DOMAIN_KEYWORDS` maps each of the four domains to its keyword list and
regex pattern list.  Patterns carry their Python source text because
`detect_domain` records `"pattern:" + source[:20]` tags among the
matched keywords.  All patterns are applied to the lower-cased query, so
the `re.IGNORECASE` flag reduces to lower-case literals (`pH` → `ph`).
-/

/-- Keyword list of the `disease` intent domain. -/
def diseaseIntentKeywords : List String :=
  ["disease", "symptom", "infection", "pathogen", "fungal", "bacterial",
   "viral", "pest", "insect", "infestation", "lesion", "blight", "rust",
   "mildew", "scab", "wilt", "rot", "canker", "damping-off", "yellowing",
   "spotting", "blotch", "stripe", "necrosis", "prevention", "treatment",
   "management", "control", "resistant", "susceptible", "tolerance"]

/-- Regex patterns of the `disease` intent domain, with their source text. -/
def diseaseIntentPatterns : List (String × RE) :=
  [("(yellow|stripe|stem|leaf|powdery|septoria)\\s+rust",
    reSeq (reWords "yellow" ["stripe", "stem", "leaf", "powdery", "septoria"]) [reWs, reWord "rust"]),
   ("(fusarium|head|blight)", reWords "fusarium" ["head", "blight"]),
   ("(powdery)\\s+(mildew)", reSeq (reWord "powdery") [reWs, reWord "mildew"]),
   ("(take[- ]?all)", reSeq (reWord "take") [RE.opt (fun c => c = '-' || c = ' '), reWord "all"]),
   ("(wheat\\s+blast)", reSeq (reWord "wheat") [reWs, reWord "blast"]),
   ("(bacterial\\s+leaf\\s+streak)",
    reSeq (reWord "bacterial") [reWs, reWord "leaf", reWs, reWord "streak"]),
   ("(tan\\s+spot)", reSeq (reWord "tan") [reWs, reWord "spot"])]

/-- Keyword list of the `climate` intent domain. -/
def climateIntentKeywords : List String :=
  ["climate", "weather", "temperature", "rainfall", "precipitation",
   "humidity", "moisture", "drought", "flood", "rain", "snow", "frost",
   "heat", "cold", "wind", "season", "monsoon", "irrigation", "water",
   "drought stress", "heat stress", "cold stress", "wet", "dry"]

/-- Regex patterns of the `climate` intent domain, with their source text. -/
def climateIntentPatterns : List (String × RE) :=
  [("(rainfall|precipitation|rain|moisture)\\s+(pattern|forecast|requirement)",
    reSeq (reWords "rainfall" ["precipitation", "rain", "moisture"])
      [reWs, reWords "pattern" ["forecast", "requirement"]]),
   ("(temperature|heat|frost|cold)\\s+(stress|requirement|tolerance)",
    reSeq (reWords "temperature" ["heat", "frost", "cold"])
      [reWs, reWords "stress" ["requirement", "tolerance"]]),
   ("(drought|flood|irrigation|water)", reWords "drought" ["flood", "irrigation", "water"]),
   ("(climate|weather|monsoon|season)", reWords "climate" ["weather", "monsoon", "season"])]

/-- Keyword list of the `soil` intent domain. -/
def soilIntentKeywords : List String :=
  ["soil", "earth", "ground", "fertility", "nutrient", "nitrogen", "phosphorus",
   "potassium", "pH", "acidity", "alkalinity", "organic", "humus", "texture",
   "structure", "drainage", "compaction", "salinity", "iron", "zinc", "boron",
   "deficiency", "amendment", "compost", "manure", "fertilizer", "NPK", "water"]

/-- Regex patterns of the `soil` intent domain, with their source text. -/
def soilIntentPatterns : List (String × RE) :=
  [("(soil|ground|earth)\\s+(fertility|health|quality|condition|texture|structure|pH)",
    reSeq (reWords "soil" ["ground", "earth"])
      [reWs, reWords "fertility" ["health", "quality", "condition", "texture", "structure", "ph"]]),
   ("(nitrogen|phosphorus|potassium|NPK|nutrient)\\s+(deficiency|requirement)",
    reSeq (reWords "nitrogen" ["phosphorus", "potassium", "npk", "nutrient"])
      [reWs, reWords "deficiency" ["requirement"]]),
   ("(soil\\s+water|drainage|moisture|waterlogging)",
    reAlts (reSeq (reWord "soil") [reWs, reWord "water"])
      [reWord "drainage", reWord "moisture", reWord "waterlogging"]),
   ("(organic\\s+matter|humus|fertility)",
    reAlts (reSeq (reWord "organic") [reWs, reWord "matter"])
      [reWord "humus", reWord "fertility"])]

/-- Keyword list of the `policy` intent domain. -/
def policyIntentKeywords : List String :=
  ["policy", "regulation", "subsidy", "grant", "loan", "insurance",
   "certification", "standard", "guideline", "law", "rule", "requirement",
   "government", "ministry", "scheme", "program", "support", "assistance",
   "minimum support price", "MSP", "procurement", "export", "import"]

/-- Regex patterns of the `policy` intent domain, with their source text. -/
def policyIntentPatterns : List (String × RE) :=
  [("(government|policy|subsidy|grant|loan)",
    reWords "government" ["policy", "subsidy", "grant", "loan"]),
   ("(certification|standard|quality|export|import)",
    reWords "certification" ["standard", "quality", "export", "import"]),
   ("(minimum\\s+support\\s+price|MSP|procurement)",
    reAlts (reSeq (reWord "minimum") [reWs, reWord "support", reWs, reWord "price"])
      [reWord "msp", reWord "procurement"]),
   ("(scheme|program|assistance|support)",
    reWords "scheme" ["program", "assistance", "support"])]

/-- Insertion order of `DOMAIN_KEYWORDS` (Python dicts iterate in this order). -/
def domainNames : List String := ["disease", "climate", "soil", "policy"]

/-- The keyword list of a domain. -/
def keywordsOf (d : String) : List String :=
  if d = "disease" then diseaseIntentKeywords
  else if d = "climate" then climateIntentKeywords
  else if d = "soil" then soilIntentKeywords
  else if d = "policy" then policyIntentKeywords
  else []

/-- The pattern list of a domain. -/
def patternsOf (d : String) : List (String × RE) :=
  if d = "disease" then diseaseIntentPatterns
  else if d = "climate" then climateIntentPatterns
  else if d = "soil" then soilIntentPatterns
  else if d = "policy" then policyIntentPatterns
  else []

/-- One domain scoring pass of `detect_domain`: the score (`+1` per keyword
substring hit on the lower-cased query, `+3` per pattern hit) together with
the matched-keyword trace (keyword hits, then `pattern:`-tags). -/
def domainScoreMatched (q : List Char) (d : String) : ℕ × List String :=
  let kmatched := (keywordsOf d).filter (fun k => isSubstr (lowerL k.data) q)
  let pmatched := (patternsOf d).filter (fun p => reSearch p.2 q)
  (kmatched.length + 3 * pmatched.length,
   kmatched ++ pmatched.map (fun p => "pattern:" ++ p.1.take 20))

/-- The `domain_scores` mapping of `detect_domain`, in dict insertion order. -/
def domainScores (query : String) : List (String × ℕ) :=
  domainNames.map (fun d => (d, (domainScoreMatched (lowerL query.data) d).1))

/-- `max_score = max(domain_scores.values())`. -/
def maxScore (query : String) : ℕ :=
  ((domainScores query).map (fun p => p.2)).foldr max 0

/-- `max(domain_scores, key=domain_scores.get)`: the first domain, in dict
insertion order, whose score attains the maximum (Python `max` keeps the
first maximal element).  The `"general"` default is never used when some
domain scores nonzero. -/
def primary_domain (query : String) : String :=
  (((domainScores query).find? (fun p => p.2 == maxScore query)).map (fun p => p.1)).getD
    "general"

/-- Result record of `DomainIntentDetector.detect_domain`. -/
structure IntentResult where
  domain : String
  confidence : ℚ
  secondary_domains : List String
  intent_keywords : List String
  route_to : List String
deriving DecidableEq

/-- `domain_scores[primary_domain]` — the dict lookup of the primary domain's
score (modelled, like the dict itself, by an association-list search on the
first component). -/
def primaryScoreOf (query : String) : ℕ :=
  (((domainScores query).find? (fun p => p.1 == primary_domain query)).map
    (fun p => p.2)).getD 0

/-- `confidence = min(1.0, domain_scores[primary_domain] / max_score)`. -/
def confidenceOf (query : String) : ℚ :=
  min 1 ((primaryScoreOf query : ℚ) / (maxScore query : ℚ))

/-- The `secondary_domains` comprehension of `detect_domain`.  The comparison
`score > max_score * 0.3` is modelled over `ℚ` as `score > max_score * (3/10)`;
at every integer score pair exercised below the Python float comparison agrees
with the rational one (for `max_score = 10` the float product `10 * 0.3` is
exactly `3.0`). -/
def secondary_domainsOf (query : String) : List String :=
  ((domainScores query).filter
    (fun p => p.1 != primary_domain query &&
      decide ((p.2 : ℚ) > (maxScore query : ℚ) * (3 / 10)))).map (fun p => p.1)

/-- The routing policy of `detect_domain` (before duplicate removal). -/
def route_toOf (query : String) : List String :=
  if confidenceOf query > 7 / 10 then [primary_domain query]
  else if confidenceOf query > 1 / 2 then
    primary_domain query :: secondary_domainsOf query
  else
    let r := primary_domain query :: secondary_domainsOf query
    if r.length < 2 then ["disease", "climate", "soil", "policy"] else r

/-- `DomainIntentDetector.detect_domain`.  `list(set(route_to))` is modelled as
first-occurrence deduplication; its (hash-dependent) ordering is only ever
applied to a singleton on reachable paths, see theorem `C2_confidence_saturates`. -/
def detect_domain (query : String) : IntentResult :=
  if maxScore query = 0 then
    { domain := "general", confidence := 0, secondary_domains := [],
      intent_keywords := [], route_to := ["disease", "climate", "soil", "policy"] }
  else
    { domain := primary_domain query, confidence := confidenceOf query,
      secondary_domains := secondary_domainsOf query,
      intent_keywords :=
        ((domainScoreMatched (lowerL query.data) (primary_domain query)).2).take 5,
      route_to := (route_toOf query).eraseDups }

/-! ### Domain retrievers and the retrieval orchestrator
(`RAG/domain_retrievers.py`)

The external `similarity_search` collaborator is a parameter of type
`SearchFn`; a Python exception raised by it is modelled as an
`Except.error`.  Each of the four concrete retriever classes is the base
`DomainRetriever` plus a domain-specific list of bonus regex patterns
(each matching pattern adds `2` to the keyword-overlap score).
-/

/-- The external `similarity_search(query, data_type, crop, province, limit)`
collaborator; `Except.error` models a raised exception. -/
def SearchFn : Type :=
  String → String → String → String → ℕ → Except String (List (String × ℚ))

/-- A domain retriever: the state of `DomainRetriever.__init__` plus the
bonus patterns of the concrete subclass's `calculate_keyword_overlap`
(the base class contributes no patterns). -/
structure Retriever where
  domain : String
  data_type : String
  crop : String
  bonusPatterns : List RE

/-- `DomainRetriever.retrieve`: delegate to `similarity_search`; on an
exception return `[]` instead of propagating. -/
def retrieve (search : SearchFn) (r : Retriever) (query : String) (limit : ℕ) :
    List (String × ℚ) :=
  match search query r.data_type r.crop "Punjab" limit with
  | .ok results => results
  | .error _ => []

/-- `calculate_keyword_overlap` (base count plus the subclass's `+2` bonus per
matching domain pattern, all on the lower-cased content). -/
def calculate_keyword_overlap (r : Retriever) (content : String)
    (keywords : List String) : ℕ :=
  (keywords.filter (fun k => isSubstr (lowerL k.data) (lowerL content.data))).length
    + 2 * (r.bonusPatterns.filter (fun p => reSearch p (lowerL content.data))).length

/-- Bonus patterns of `DiseaseRetriever.calculate_keyword_overlap`. -/
def diseaseBonusPatterns : List RE :=
  [reAlts (reSeq (reWord "yellow") [reWs, reWord "rust"])
     [reSeq (reWord "stripe") [reWs, reWord "rust"], reWord "puccinia"],
   reAlts (reSeq (reWord "powdery") [reWs, reWord "mildew"]) [reWord "blumeria"],
   reAlts (reWord "septoria") [reSeq (reWord "leaf") [reWs, reWord "blotch"]],
   reAlts (reWord "fusarium")
     [reSeq (reWord "head") [reWs, reWord "blight"], reWord "scab"],
   reAlts (reSeq (reWord "tan") [reWs, reWord "spot"]) [reWord "pyrenophora"],
   reAlts (reSeq (reWord "leaf") [reWs, reWord "rust"])
     [reSeq (reWord "stem") [reWs, reWord "rust"],
      reSeq (reWord "black") [reWs, reWord "rust"]],
   reAlts (reSeq (reWord "wheat") [reWs, reWord "blast"]) [reWord "magnaporthe"],
   reAlts (reSeq (reWord "bacterial") [reWs, reWord "leaf", reWs, reWord "streak"])
     [reWord "xanthomonas"],
   reWords "take-all" ["gaumannomyces"],
   reWords "symptom" ["infection", "resistance", "susceptib"]]

/-- Bonus patterns of `ClimateRetriever.calculate_keyword_overlap`
(`\d+\s*(mm|cm|inches)\s+(rainfall|precipitation)` and friends; the class
`[°c|°f]` matches one of the characters `°`, `c`, `|`, `f`). -/
def climateBonusPatterns : List RE :=
  [reSeq reDigits
     [reWsStar, reWords "mm" ["cm", "inches"], reWs,
      reWords "rainfall" ["precipitation"]],
   reSeq reDigits
     [RE.cls (fun c => c = '°' || c = 'c' || c = '|' || c = 'f'), reWs,
      reWords "temperature" ["temp"]],
   reSeq reDigits
     [reWsStar, reWords "%" ["percent"], reWs, reWords "humidity" ["moisture"]]]

/-- Bonus patterns of `SoilRetriever.calculate_keyword_overlap`. -/
def soilBonusPatterns : List RE :=
  [reSeq (reWord "ph")
     [reWsStar, RE.opt (fun c => c = '=' || c = ':'), reWsStar,
      RE.plusC (fun c => c.isDigit || c = '.')],
   reWords "nitrogen" ["phosphorus", "potassium", "npk"],
   reSeq (RE.plusC (fun c => c.isDigit || c = '.'))
     [reWsStar, reWords "kg" ["ton", "g"], reWs, reWords "per" ["/"], reWs,
      reWord "hectare"]]

/-- Bonus patterns of `PolicyRetriever.calculate_keyword_overlap`. -/
def policyBonusPatterns : List RE :=
  [reWords "eligibility" ["eligible", "requirement"],
   reSeq (reWords "rupees" ["rs", "₹"])
     [reWsStar, RE.plusC (fun c => c.isDigit || c = ',')],
   reWords "scheme" ["program", "policy", "guideline"]]

/-- `DiseaseRetriever()`. -/
def diseaseRetriever : Retriever := ⟨"disease", "disease", "Wheat", diseaseBonusPatterns⟩

/-- `ClimateRetriever()`. -/
def climateRetriever : Retriever := ⟨"climate", "climate", "Wheat", climateBonusPatterns⟩

/-- `SoilRetriever()`. -/
def soilRetriever : Retriever := ⟨"soil", "soil", "Wheat", soilBonusPatterns⟩

/-- `PolicyRetriever()`. -/
def policyRetriever : Retriever := ⟨"policy", "policy", "Wheat", policyBonusPatterns⟩

/-- The `self.retrievers` dict of `RetrieverOrchestrator`, in insertion order. -/
def retrievers : List (String × Retriever) :=
  [("disease", diseaseRetriever), ("climate", climateRetriever),
   ("soil", soilRetriever), ("policy", policyRetriever)]

/-- Dict lookup in `self.retrievers`. -/
def lookupRetriever (domain : String) : Option Retriever :=
  (retrievers.find? (fun p => p.1 == domain)).map (fun p => p.2)

/-- The combined score of one candidate:
`vector_score / (keyword_overlap + 1)` when the overlap is positive, else
`vector_score * 2`. -/
def combined_score (vector_score : ℚ) (keyword_overlap : ℕ) : ℚ :=
  if 0 < keyword_overlap then vector_score / ((keyword_overlap : ℚ) + 1)
  else vector_score * 2

/-- The `all_results` accumulator of `retrieve_from_domains`: for each
requested domain (skipping unknown ones), retrieve and score each hit.
Results are produced in domain-iteration order. -/
def scored_candidates (search : SearchFn) (domains : List String) (query : String)
    (keywords : List String) (limit : ℕ) : List (String × ℚ × String) :=
  domains.flatMap (fun domain =>
    match lookupRetriever domain with
    | none => []
    | some r =>
      (retrieve search r query limit).map (fun cv =>
        (cv.1, combined_score cv.2 (calculate_keyword_overlap r cv.1 keywords), domain)))

/-- Order used by `all_results.sort(key=lambda x: x[1])`: ascending combined
score; Python's sort is stable, modelled by `List.mergeSort`. -/
def byCombined (a b : String × ℚ × String) : Bool := decide (a.2.1 ≤ b.2.1)

/-- `RetrieverOrchestrator.retrieve_from_domains`. -/
def retrieve_from_domains (search : SearchFn) (domains : List String) (query : String)
    (keywords : List String) (limit : ℕ) : List (String × ℚ × String) :=
  (scored_candidates search domains query keywords limit).mergeSort byCombined

/-! ### Hybrid risk assessment (`RAG/hybrib_assess.py`)

The knowledge base is loaded at import time from
`RAG/data/wheat_knowledge_base.json`, a data file that is not part of the
source tree; accordingly `KNOWLEDGE_BASE['wheat_diseases']` and
`KNOWLEDGE_BASE['climate_risk_factors']` are passed as list parameters.
Purely presentational f-strings of the source (`conditions_met` render
strings and the `reason` sentence) carry no decision content and are
modelled by their structured numeric payload.
-/

/-- Python's `round` (banker's rounding) on a rational. -/
def pyRound (x : ℚ) : ℤ :=
  if x - ⌊x⌋ < 1 / 2 then ⌊x⌋
  else if x - ⌊x⌋ > 1 / 2 then ⌊x⌋ + 1
  else if ⌊x⌋ % 2 = 0 then ⌊x⌋ else ⌊x⌋ + 1

/-- Python's `round(x, 1)`. -/
def round1 (x : ℚ) : ℚ := (pyRound (10 * x) : ℚ) / 10

/-- The `management` dict of a disease record; only `chemical_control` is ever
read (`management.get('chemical_control')`, empty list falsy). -/
structure Management where
  chemical_control : List String
deriving DecidableEq

/-- The `favorable_conditions` dict of a disease record. -/
structure FavorableConditions where
  temperature_min : ℚ
  temperature_max : ℚ
  temperature_optimal : ℚ
  humidity_min : ℚ
deriving DecidableEq

/-- One record of `KNOWLEDGE_BASE['wheat_diseases']`. -/
structure DiseaseRecord where
  disease_name : String
  disease_id : String
  affected_stages : List String
  vulnerable_days_after_sowing : ℚ × ℚ
  favorable_conditions : FavorableConditions
  climate_triggers : List String
  symptoms : List String
  management : Management
  severity_impact : String
  source : String
deriving DecidableEq

/-- The farmer-context fields read by the rule matchers. -/
structure FarmerContext where
  temp_c : ℚ
  humidity : ℚ
  stage : String
  days_after_sowing : ℚ
deriving DecidableEq

/-- The temperature sub-score (0–100) of `match_diseases_by_conditions`:
inside the viable range, `100` minus the percentage deviation from the
optimal temperature relative to the range width; outside the range, `0`. -/
def temp_score (ctx : FarmerContext) (c : FavorableConditions) : ℚ :=
  if c.temperature_min ≤ ctx.temp_c ∧ ctx.temp_c ≤ c.temperature_max then
    max 0 (100 - |ctx.temp_c - c.temperature_optimal|
      / (c.temperature_max - c.temperature_min) * 100)
  else 0

/-- The humidity sub-score (0–100): `min(100, 60 + excess)` at or above the
minimum humidity, `max(0, 50 - 2·deficit)` below it. -/
def humidity_score (ctx : FarmerContext) (c : FavorableConditions) : ℚ :=
  if c.humidity_min ≤ ctx.humidity then
    min 100 (60 + (ctx.humidity - c.humidity_min))
  else
    max 0 (50 - (c.humidity_min - ctx.humidity) * 2)

/-- `overall_score = temp_score * 0.5 + humidity_score * 0.5`. -/
def overall_score (ctx : FarmerContext) (c : FavorableConditions) : ℚ :=
  temp_score ctx c * (1 / 2) + humidity_score ctx c * (1 / 2)

/-- The stage membership and days-after-sowing window checks of
`match_diseases_by_conditions`. -/
def diseaseWindowOpen (ctx : FarmerContext) (d : DiseaseRecord) : Prop :=
  ctx.stage ∈ d.affected_stages ∧
    d.vulnerable_days_after_sowing.1 ≤ ctx.days_after_sowing ∧
    ctx.days_after_sowing ≤ d.vulnerable_days_after_sowing.2

instance (ctx : FarmerContext) (d : DiseaseRecord) :
    Decidable (diseaseWindowOpen ctx d) := by
  unfold diseaseWindowOpen; infer_instance

/-- The score gate of `match_diseases_by_conditions`: overall score at least
`50` and both sub-scores at least `30`. -/
def diseaseGate (ctx : FarmerContext) (d : DiseaseRecord) : Prop :=
  50 ≤ overall_score ctx d.favorable_conditions ∧
    30 ≤ temp_score ctx d.favorable_conditions ∧
    30 ≤ humidity_score ctx d.favorable_conditions

instance (ctx : FarmerContext) (d : DiseaseRecord) : Decidable (diseaseGate ctx d) := by
  unfold diseaseGate; infer_instance

/-- The `conditions_met` payload (the source renders these values into
display strings; the numeric/boolean content is modelled). -/
structure ConditionsMet where
  temperature : ℚ
  temperature_required_min : ℚ
  temperature_required_max : ℚ
  humidity : ℚ
  humidity_required_min : ℚ
  humidity_ok : Bool
  stage : String
  das : ℚ
deriving DecidableEq

/-- One entry of the list built by `match_diseases_by_conditions`. -/
structure MatchedDisease where
  disease_name : String
  disease_id : String
  risk_score : ℚ
  temp_match : ℚ
  humidity_match : ℚ
  conditions_met : ConditionsMet
  triggers : List String
  symptoms : List String
  management : Management
  severity : String
  impact_details : String
  source : String
deriving DecidableEq

/-- The dict appended for a disease that passes all checks. -/
def mkMatchedDisease (ctx : FarmerContext) (d : DiseaseRecord) : MatchedDisease :=
  { disease_name := d.disease_name
    disease_id := d.disease_id
    risk_score := round1 (overall_score ctx d.favorable_conditions)
    temp_match := temp_score ctx d.favorable_conditions
    humidity_match := humidity_score ctx d.favorable_conditions
    conditions_met :=
      { temperature := ctx.temp_c
        temperature_required_min := d.favorable_conditions.temperature_min
        temperature_required_max := d.favorable_conditions.temperature_max
        humidity := ctx.humidity
        humidity_required_min := d.favorable_conditions.humidity_min
        humidity_ok := decide (d.favorable_conditions.humidity_min ≤ ctx.humidity)
        stage := ctx.stage
        das := ctx.days_after_sowing }
    triggers := d.climate_triggers
    symptoms := d.symptoms
    management := d.management
    severity :=
      if 70 ≤ overall_score ctx d.favorable_conditions then "HIGH"
      else if 40 ≤ overall_score ctx d.favorable_conditions then "MEDIUM" else "LOW"
    impact_details := d.severity_impact
    source := d.source }

/-- Descending stable order by `risk_score`
(`matched.sort(key=..., reverse=True)`). -/
def byRiskScoreDesc (a b : MatchedDisease) : Bool := decide (b.risk_score ≤ a.risk_score)

/-- `match_diseases_by_conditions`. -/
def match_diseases_by_conditions (ctx : FarmerContext)
    (wheat_diseases : List DiseaseRecord) : List MatchedDisease :=
  (wheat_diseases.filterMap (fun d =>
    if diseaseWindowOpen ctx d ∧ diseaseGate ctx d then some (mkMatchedDisease ctx d)
    else none)).mergeSort byRiskScoreDesc

/-- The `impact` field of a climate-risk record: either a plain string or a
dict carrying `yield_reduction` (the only key read). -/
inductive Impact where
  | str : String → Impact
  | dict : Option String → Impact
deriving DecidableEq

/-- The `trigger_conditions` dict of a climate-risk record;
`'temperature_threshold' in triggers` is the only membership test made. -/
structure TriggerConditions where
  temperature_threshold : Option ℚ
deriving DecidableEq

/-- One record of `KNOWLEDGE_BASE['climate_risk_factors']`. -/
structure ClimateRiskRecord where
  risk_name : String
  risk_id : String
  affected_stages : List String
  critical_days_after_sowing : ℚ × ℚ
  trigger_conditions : TriggerConditions
  climate_indicators : List String
  impact : Impact
  management_recommendations : List String
  source : String
deriving DecidableEq

/-- One entry of the list built by `match_climate_risks_by_conditions`. -/
structure MatchedClimateRisk where
  risk_name : String
  risk_id : String
  risk_score : ℚ
  triggers_met : List String
  impact : Impact
  management : List String
  severity : String
  source : String
deriving DecidableEq

/-- The continuous climate risk score of `match_climate_risks_by_conditions`:
a threshold below `10` is a cold risk (fires when `temp ≤ threshold`), any
other a heat risk (fires when `temp ≥ threshold`); the score is
`min(100, 60 + 10·overshoot)` and `none` means the rule did not trigger. -/
def climateRiskScore (temp threshold : ℚ) : Option ℚ :=
  if threshold < 10 then
    if temp ≤ threshold then some (min 100 (60 + (threshold - temp) * 10)) else none
  else
    if threshold ≤ temp then some (min 100 (60 + (temp - threshold) * 10)) else none

/-- The stage and critical-days window checks of
`match_climate_risks_by_conditions`. -/
def climateWindowOpen (ctx : FarmerContext) (r : ClimateRiskRecord) : Prop :=
  ctx.stage ∈ r.affected_stages ∧
    r.critical_days_after_sowing.1 ≤ ctx.days_after_sowing ∧
    ctx.days_after_sowing ≤ r.critical_days_after_sowing.2

instance (ctx : FarmerContext) (r : ClimateRiskRecord) :
    Decidable (climateWindowOpen ctx r) := by
  unfold climateWindowOpen; infer_instance

/-- The dict appended for a triggered climate risk of score `s`. -/
def mkMatchedClimateRisk (r : ClimateRiskRecord) (s : ℚ) : MatchedClimateRisk :=
  { risk_name := r.risk_name
    risk_id := r.risk_id
    risk_score := round1 s
    triggers_met := r.climate_indicators
    impact := r.impact
    management := r.management_recommendations
    severity := if 70 < s then "HIGH" else "MEDIUM"
    source := r.source }

/-- Descending stable order by `risk_score` for climate risks. -/
def byClimateScoreDesc (a b : MatchedClimateRisk) : Bool :=
  decide (b.risk_score ≤ a.risk_score)

/-- `match_climate_risks_by_conditions`. -/
def match_climate_risks_by_conditions (ctx : FarmerContext)
    (climate_risk_factors : List ClimateRiskRecord) : List MatchedClimateRisk :=
  (climate_risk_factors.filterMap (fun r =>
    if climateWindowOpen ctx r then
      match r.trigger_conditions.temperature_threshold with
      | some threshold =>
        match climateRiskScore ctx.temp_c threshold with
        | some s => if 50 ≤ s then some (mkMatchedClimateRisk r s) else none
        | none => none
      | none => none
    else none)).mergeSort byClimateScoreDesc

/-- One attached RAG context item (`{"content", "score", "id"}`). -/
structure RagItem where
  content : String
  score : ℚ
  id : ℕ
deriving DecidableEq

/-- One entry of the `diseases` list of the hybrid report (the templated
`reason` sentence of the source is presentational and derived from
`conditions_met`, which is carried on the matched record itself). -/
structure DiseaseReportItem where
  name : String
  risk : String
  score : ℚ
  triggers : List String
  action : String
  symptoms : List String
  management : Management
  severity : String
deriving DecidableEq

/-- One entry of the `risks` list of the hybrid report. -/
structure ClimateReportItem where
  name : String
  severity : String
  impact : String
  triggers : List String
  action : String
  management : List String
deriving DecidableEq

/-- The full return value of `get_risk_assessment_hybrid`. -/
structure HybridAssessment where
  disease_level : String
  disease_confidence : ℚ
  diseases : List DiseaseReportItem
  climate_level : String
  climate_confidence : ℚ
  risks : List ClimateReportItem
  rag_context : List RagItem
  priority_actions : List String
  summary : String
deriving DecidableEq

/-- `get_treatment_summary`: first chemical-control recommendation, else a
generic monitoring advice. -/
def get_treatment_summary (m : Management) : String :=
  match m.chemical_control with
  | [] => "Monitor crop regularly"
  | a :: _ => a

/-- `generate_priority_actions`: top disease action (if its score is at least
60), then top climate action (same bar), else one generic action; capped at 3. -/
def generate_priority_actions (diseases : List MatchedDisease)
    (climate_risks : List MatchedClimateRisk) : List String :=
  let diseaseActs : List String :=
    match diseases.head? with
    | some d =>
      if 60 ≤ d.risk_score then
        match d.management.chemical_control with
        | [] => []
        | c :: _ => [c]
      else []
    | none => []
  let climateActs : List String :=
    match climate_risks.head? with
    | some r =>
      if 60 ≤ r.risk_score then
        match r.management with
        | [] => []
        | c :: _ => [c]
      else []
    | none => []
  let actions := diseaseActs ++ climateActs
  (if actions = [] then ["Continue regular crop monitoring"] else actions).take 3

/-- `generate_summary` (the guards `if diseases:` of the source are head
matches on the sorted candidate lists). -/
def generate_summary (diseases : List MatchedDisease)
    (climate_risks : List MatchedClimateRisk) : String :=
  match diseases.head?, climate_risks.head? with
  | none, none =>
    "No significant disease or climate risks detected at current conditions"
  | some d, cOpt =>
    if 70 ≤ d.risk_score then
      "High risk of " ++ d.disease_name ++
        " due to favorable weather conditions - immediate action recommended"
    else
      match cOpt with
      | some c =>
        if 70 ≤ c.risk_score then
          "High " ++ c.risk_name ++ " risk - take protective measures"
        else "Moderate risk of " ++ d.disease_name ++ " - monitor crop closely"
      | none => "Moderate risk of " ++ d.disease_name ++ " - monitor crop closely"
  | none, some c =>
    if 70 ≤ c.risk_score then
      "High " ++ c.risk_name ++ " risk - take protective measures"
    else "Monitor weather conditions and crop health regularly"

/-- The per-group risk level of `get_risk_assessment_hybrid`: HIGH when the
top (highest-scoring) candidate scores at least 70, MEDIUM at least 40,
otherwise LOW (also when there is no candidate). -/
def groupLevel (top : Option ℚ) : String :=
  match top with
  | none => "LOW"
  | some s => if 70 ≤ s then "HIGH" else if 40 ≤ s then "MEDIUM" else "LOW"

/-- The per-group confidence: top score divided by 100, or 0 with no candidates. -/
def groupConfidence (top : Option ℚ) : ℚ :=
  match top with
  | none => 0
  | some s => s / 100

/-- `get_risk_assessment_hybrid` (knowledge base passed explicitly, optional
`rag_results` as in the source). -/
def get_risk_assessment_hybrid (ctx : FarmerContext)
    (wheat_diseases : List DiseaseRecord)
    (climate_risk_factors : List ClimateRiskRecord)
    (rag_results : Option (List (String × ℚ))) : HybridAssessment :=
  let rule_based_diseases := match_diseases_by_conditions ctx wheat_diseases
  let rule_based_climate := match_climate_risks_by_conditions ctx climate_risk_factors
  let rag_context :=
    match rag_results with
    | none => []
    | some rs => rs.enum.map (fun p => RagItem.mk p.2.1 p.2.2 p.1)
  { disease_level := groupLevel ((rule_based_diseases.head?).map MatchedDisease.risk_score)
    disease_confidence :=
      groupConfidence ((rule_based_diseases.head?).map MatchedDisease.risk_score)
    diseases := (rule_based_diseases.take 3).map (fun d =>
      { name := d.disease_name
        risk := if (70 : ℚ) ≤ d.risk_score then "HIGH"
                else if (40 : ℚ) ≤ d.risk_score then "MEDIUM" else "LOW"
        score := d.risk_score
        triggers := d.triggers.take 3
        action := get_treatment_summary d.management
        symptoms := d.symptoms
        management := d.management
        severity := d.severity })
    climate_level := groupLevel ((rule_based_climate.head?).map MatchedClimateRisk.risk_score)
    climate_confidence :=
      groupConfidence ((rule_based_climate.head?).map MatchedClimateRisk.risk_score)
    risks := (rule_based_climate.take 2).map (fun r =>
      { name := r.risk_name
        severity := r.severity
        impact := match r.impact with
                  | .str s => s
                  | .dict y => y.getD "High"
        triggers := r.triggers_met.take 3
        action := match r.management with
                  | [] => "Monitor conditions"
                  | a :: _ => a
        management := r.management })
    rag_context := rag_context
    priority_actions := generate_priority_actions rule_based_diseases rule_based_climate
    summary := generate_summary rule_based_diseases rule_based_climate }

/-! ### Declarative climate risk rules (`App/data/climate_risk_rules.py`)

Rules are dicts with a `condition` tag and optional per-rule threshold
overrides; `rule.get(key, default)` becomes `Option.getD`.  The weather
mapping is a record of four optional measurements; a rule whose relevant
key is absent silently does not fire.
-/

/-- The rule condition tags (`COND_TEMP_HIGH`, ...). -/
inductive Cond where
  | temp_high
  | temp_low
  | humidity_high
  | chance_of_rain_high
  | wind_high
deriving DecidableEq

/-- One rule dict of `CLIMATE_RISK_RULES` (fields that a rule may omit are
optional, matching `rule.get`). -/
structure ClimateRule where
  condition : Option Cond := none
  temp_min : Option ℚ := none
  temp_max : Option ℚ := none
  humidity_min : Option ℚ := none
  chance_min : Option ℚ := none
  wind_min : Option ℚ := none
  level : String
  message_en : Option String := none
  message_ur : Option String := none
  actions_en : Option (List String) := none
  actions_ur : Option (List String) := none
deriving DecidableEq

/-- The weather mapping (`weather.get` on the four known keys). -/
structure Weather where
  temp_c : Option ℚ := none
  humidity : Option ℚ := none
  chance_of_rain : Option ℚ := none
  wind_kph : Option ℚ := none
deriving DecidableEq

/-- The weather mapping `{}` with no keys at all. -/
def emptyWeather : Weather := {}

/-- `_rule_matches`: evaluate the rule's condition against the weather,
falling through to `False` when the tag is missing or the matching weather
key is absent. -/
def _rule_matches (rule : ClimateRule) (weather : Weather) : Bool :=
  match rule.condition with
  | none => false
  | some .temp_high =>
    match weather.temp_c with
    | some t => decide (rule.temp_min.getD 35 ≤ t)
    | none => false
  | some .temp_low =>
    match weather.temp_c with
    | some t => decide (t ≤ rule.temp_max.getD 10)
    | none => false
  | some .humidity_high =>
    match weather.humidity with
    | some h => decide (rule.humidity_min.getD 80 ≤ h)
    | none => false
  | some .chance_of_rain_high =>
    match weather.chance_of_rain with
    | some c => decide (rule.chance_min.getD 50 ≤ c)
    | none => false
  | some .wind_high =>
    match weather.wind_kph with
    | some w => decide (rule.wind_min.getD 40 ≤ w)
    | none => false

/-- The heat rule of `CLIMATE_RISK_RULES[("Wheat", "Flowering")]`
(fires at `temp_c >= 35`). -/
def wheatFloweringHeatRule : ClimateRule :=
  { condition := some .temp_high, temp_min := some 35, level := "HIGH",
    message_en := some "Heat stress during flowering reduces grain set and yield.",
    message_ur := some "پھول لگتے وقت گرمی کا دباؤ دانے اور پیداوار کم کر سکتا ہے۔",
    actions_en := some ["Irrigate in early morning.", "Monitor for blight and rust."],
    actions_ur := some ["صبح سویرے آبپاشی کریں۔", "جھلساؤ اور زنگ پر نظر رکھیں۔"] }

/-- The humidity rule of `CLIMATE_RISK_RULES[("Wheat", "Flowering")]`
(fires at `humidity >= 80`). -/
def wheatFloweringHumidityRule : ClimateRule :=
  { condition := some .humidity_high, humidity_min := some 80, level := "HIGH",
    message_en := some "High humidity favors Yellow Rust and other fungal diseases. Preventative fungicide recommended.",
    message_ur := some "زیادہ نمی زرد زنگ اور دیگر پھپھوندی بیماریوں کو پسند کرتی ہے۔ حفاظتی فنگسائڈ تجویز ہے۔",
    actions_en := some ["Apply preventative fungicide if not done.", "Monitor lower leaves daily."],
    actions_ur := some ["اگر نہیں کیا تو حفاظتی فنگسائڈ استعمال کریں۔", "نچلے پتوں پر روزانہ نظر رکھیں۔"] }

/-- The `CLIMATE_RISK_RULES` table, keyed by `(crop, stage)`. -/
def CLIMATE_RISK_RULES : List ((String × String) × List ClimateRule) :=
  [(("Wheat", "Sowing"),
    [{ condition := some .temp_low, temp_max := some 5, level := "HIGH",
       message_en := some "Frost risk. Low temperature can damage seedlings.",
       message_ur := some "پالا کا خطرہ۔ کم درجہ حرارت بیجوں کو نقصان پہنچا سکتا ہے۔",
       actions_en := some ["Delay sowing if possible.", "Monitor soil temperature."],
       actions_ur := some ["اگر ممکن ہو تو بوائی مؤخر کریں۔", "مٹی کے درجہ حرارت پر نظر رکھیں۔"] },
     { condition := some .humidity_high, humidity_min := some 85, level := "MEDIUM",
       message_en := some "High humidity at sowing increases fungal risk. Use treated seed.",
       message_ur := some "بوائی کے وقت زیادہ نمی پھپھوندی کے خطرے کو بڑھاتی ہے۔ علاج شدہ بیج استعمال کریں۔",
       actions_en := some ["Use treated seed.", "Ensure good drainage."],
       actions_ur := some ["علاج شدہ بیج استعمال کریں۔", "اچھی نکاسی یقینی بنائیں۔"] }]),
   (("Wheat", "Vegetative"),
    [{ condition := some .temp_high, temp_min := some 38, level := "HIGH",
       message_en := some "Heat stress during vegetative stage can stunt growth.",
       message_ur := some "نباتاتی مرحلے میں گرمی کا دباؤ نشوونما روک سکتا ہے۔",
       actions_en := some ["Irrigate in early morning or evening.", "Monitor for heat stress."],
       actions_ur := some ["صبح سویرے یا شام کو آبپاشی کریں۔", "گرمی کے دباؤ پر نظر رکھیں۔"] },
     { condition := some .humidity_high, humidity_min := some 80, level := "MEDIUM",
       message_en := some "High humidity favors foliar diseases. Scout for early symptoms.",
       message_ur := some "زیادہ نمی پتوں کی بیماریوں کو پسند کرتی ہے۔ ابتدائی علامات دیکھیں۔",
       actions_en := some ["Scout for disease symptoms.", "Avoid overhead irrigation at night."],
       actions_ur := some ["بیماری کی علامات دیکھیں۔", "رات کو اوپر سے آبپاشی سے گریز کریں۔"] }]),
   (("Wheat", "Flowering"), [wheatFloweringHeatRule, wheatFloweringHumidityRule]),
   (("Wheat", "Harvest"),
    [{ condition := some .chance_of_rain_high, chance_min := some 60, level := "HIGH",
       message_en := some "Rain forecast during harvest increases lodging and grain damage risk.",
       message_ur := some "کٹائی کے دوران بارش کی پیشگوئی گرنے اور دانے کے نقصان کا خطرہ بڑھاتی ہے۔",
       actions_en := some ["Harvest as soon as grain is ready.", "Avoid harvesting when wet."],
       actions_ur := some ["جیسے ہی دانہ تیار ہو کٹائی کریں۔", "گیلے وقت کٹائی سے گریز کریں۔"] }]),
   (("Rice", "Sowing"),
    [{ condition := some .temp_low, temp_max := some 18, level := "HIGH",
       message_en := some "Low temperature delays germination and increases seedling disease.",
       message_ur := some "کم درجہ حرارت اگانے میں تاخیر اور پودوں کی بیماری بڑھاتا ہے۔",
       actions_en := some ["Use pre-germinated seed in cold periods.", "Maintain nursery water level."],
       actions_ur := some ["سردی میں پہلے سے اگے ہوئے بیج استعمال کریں۔", "نرسری میں پانی کا لیول برقرار رکھیں۔"] }]),
   (("Rice", "Vegetative"),
    [{ condition := some .temp_high, temp_min := some 38, level := "HIGH",
       message_en := some "High temperature during vegetative stage increases water demand and stress.",
       message_ur := some "نباتاتی مرحلے میں زیادہ درجہ حرارت پانی کی ضرورت اور دباؤ بڑھاتا ہے۔",
       actions_en := some ["Maintain adequate flood depth.", "Irrigate in cooler hours."],
       actions_ur := some ["پانی کی مناسب گہرائی برقرار رکھیں۔", "ٹھنڈے اوقات میں آبپاشی کریں۔"] }]),
   (("Rice", "Flowering"),
    [{ condition := some .temp_high, temp_min := some 35, level := "HIGH",
       message_en := some "Heat during flowering causes spikelet sterility and yield loss.",
       message_ur := some "پھول لگتے وقت گرمی سے بالیوں میں بانجھ پن اور پیداوار کم ہوتی ہے۔",
       actions_en := some ["Keep field flooded during flowering.", "Avoid water stress."],
       actions_ur := some ["پھول لگتے وقت کھیت میں پانی رکھیں۔", "پانی کے دباؤ سے گریز کریں۔"] },
     { condition := some .humidity_high, humidity_min := some 85, level := "MEDIUM",
       message_en := some "High humidity favors blast and bacterial blight. Monitor regularly.",
       message_ur := some "زیادہ نمی بلاسٹ اور بیکٹیریل بلائٹ کو پسند کرتی ہے۔ باقاعدہ نگرانی کریں۔",
       actions_en := some ["Scout for blast and blight.", "Apply recommended fungicide if needed."],
       actions_ur := some ["بلاسٹ اور بلائٹ دیکھیں۔", "ضرورت ہو تو تجویز کردہ فنگسائڈ استعمال کریں۔"] }]),
   (("Rice", "Harvest"),
    [{ condition := some .chance_of_rain_high, chance_min := some 50, level := "MEDIUM",
       message_en := some "Rain at harvest can cause lodging and grain sprouting.",
       message_ur := some "کٹائی کے وقت بارش گرنے اور دانے اگانے کا سبب بن سکتی ہے۔",
       actions_en := some ["Plan harvest before rain.", "Dry grain promptly after harvest."],
       actions_ur := some ["بارش سے پہلے کٹائی کی منصوبہ بندی کریں۔", "کٹائی کے فوراً بعد دانہ خشک کریں۔"] }]),
   (("Cotton", "Sowing"),
    [{ condition := some .temp_low, temp_max := some 18, level := "MEDIUM",
       message_en := some "Cool soil delays cotton emergence. Consider delaying sowing.",
       message_ur := some "ٹھنڈی مٹی روئی کے اگانے میں تاخیر کرتی ہے۔ بوائی مؤخر کرنے پر غور کریں۔",
       actions_en := some ["Wait for soil warming.", "Use quality seed."],
       actions_ur := some ["مٹی کے گرم ہونے کا انتظار کریں۔", "معیاری بیج استعمال کریں۔"] }]),
   (("Cotton", "Vegetative"),
    [{ condition := some .temp_high, temp_min := some 40, level := "HIGH",
       message_en := some "Extreme heat stresses cotton. Boll shed may increase.",
       message_ur := some "انتہائی گرمی روئی پر دباؤ ڈالتی ہے۔ ٹینڈے گرنے میں اضافہ ہو سکتا ہے۔",
       actions_en := some ["Ensure adequate irrigation.", "Monitor for pest buildup."],
       actions_ur := some ["کافی آبپاشی یقینی بنائیں۔", "کیڑوں کی تعداد پر نظر رکھیں۔"] }]),
   (("Cotton", "Flowering"),
    [{ condition := some .humidity_high, humidity_min := some 75, level := "MEDIUM",
       message_en := some "High humidity favors boll rot and foliar diseases.",
       message_ur := some "زیادہ نمی ٹینڈے سڑنے اور پتوں کی بیماریوں کو پسند کرتی ہے۔",
       actions_en := some ["Avoid excessive nitrogen.", "Scout for boll rot."],
       actions_ur := some ["ضرورت سے زیادہ نائٹروجن سے گریز کریں۔", "ٹینڈے سڑن پر نظر رکھیں۔"] }]),
   (("Cotton", "Harvest"),
    [{ condition := some .chance_of_rain_high, chance_min := some 50, level := "MEDIUM",
       message_en := some "Rain during picking reduces lint quality and favors staining.",
       message_ur := some "چنائی کے دوران بارش روئی کے معیار کو کم اور داغ لگنے کو بڑھاتی ہے۔",
       actions_en := some ["Pick when weather is dry.", "Avoid storing wet cotton."],
       actions_ur := some ["خشک موسم میں چنائی کریں۔", "گیلی روئی ذخیرہ نہ کریں۔"] }]),
   (("Sugarcane", "Sowing"), []),
   (("Sugarcane", "Vegetative"),
    [{ condition := some .temp_high, temp_min := some 40, level := "MEDIUM",
       message_en := some "Very high temperature increases water demand. Maintain irrigation.",
       message_ur := some "بہت زیادہ درجہ حرارت پانی کی ضرورت بڑھاتا ہے۔ آبپاشی برقرار رکھیں۔",
       actions_en := some ["Irrigate regularly.", "Monitor for borers."],
       actions_ur := some ["باقاعدہ آبپاشی کریں۔", "سرکنڈے کھانے والے کیڑوں پر نظر رکھیں۔"] }]),
   (("Sugarcane", "Flowering"), []),
   (("Sugarcane", "Harvest"),
    [{ condition := some .chance_of_rain_high, chance_min := some 60, level := "LOW",
       message_en := some "Heavy rain can delay harvest and damage standing crop.",
       message_ur := some "زیادہ بارش کٹائی مؤخر اور کھڑی فصل کو نقصان پہنچا سکتی ہے۔",
       actions_en := some ["Plan crushing schedule around weather.", "Harvest when dry."],
       actions_ur := some ["موسم کے مطابق کرشنگ کا شیڈول بنائیں۔", "خشک موسم میں کٹائی کریں۔"] }]),
   (("Maize", "Sowing"),
    [{ condition := some .temp_low, temp_max := some 10, level := "HIGH",
       message_en := some "Cold soil delays maize emergence and increases seedling disease.",
       message_ur := some "سرد مٹی مکئی کے اگانے میں تاخیر اور پودوں کی بیماری بڑھاتی ہے۔",
       actions_en := some ["Delay sowing until soil warms.", "Use treated seed."],
       actions_ur := some ["مٹی گرم ہونے تک بوائی مؤخر کریں۔", "علاج شدہ بیج استعمال کریں۔"] }]),
   (("Maize", "Vegetative"),
    [{ condition := some .temp_high, temp_min := some 38, level := "HIGH",
       message_en := some "Heat stress during vegetative stage reduces growth and yield potential.",
       message_ur := some "نباتاتی مرحلے میں گرمی کا دباؤ نشوونما اور پیداواری صلاحیت کم کرتا ہے۔",
       actions_en := some ["Irrigate adequately.", "Monitor for fall armyworm."],
       actions_ur := some ["کافی آبپاشی کریں۔", "فال آرمی ورم پر نظر رکھیں۔"] }]),
   (("Maize", "Flowering"),
    [{ condition := some .temp_high, temp_min := some 35, level := "HIGH",
       message_en := some "Heat during pollination causes poor kernel set.",
       message_ur := some "پولنیشن کے دوران گرمی سے دانے کم لگتے ہیں۔",
       actions_en := some ["Ensure irrigation during silking.", "Avoid water stress."],
       actions_ur := some ["ریشمی مرحلے میں آبپاشی یقینی بنائیں۔", "پانی کے دباؤ سے گریز کریں۔"] }]),
   (("Maize", "Harvest"),
    [{ condition := some .chance_of_rain_high, chance_min := some 60, level := "MEDIUM",
       message_en := some "Rain at harvest can cause ear rot and storage problems.",
       message_ur := some "کٹائی کے وقت بارش کان میں سڑن اور ذخیرہ کے مسائل پیدا کر سکتی ہے۔",
       actions_en := some ["Harvest at proper moisture.", "Dry and store properly."],
       actions_ur := some ["مناسب نمی پر کٹائی کریں۔", "اچھی طرح خشک اور ذخیرہ کریں۔"] }])]

/-- `CLIMATE_RISK_RULES.get(key, [])`. -/
def rulesFor (key : String × String) : List ClimateRule :=
  ((CLIMATE_RISK_RULES.find? (fun p => p.1 == key)).map (fun p => p.2)).getD []

/-- One triggered risk item of `evaluate_climate_risk`. -/
structure RiskItem where
  level : String
  message_en : String
  message_ur : String
  actions_en : List String
  actions_ur : List String
deriving DecidableEq

/-- The synthetic `DEFAULT_LOW_RISK` favorable-conditions item. -/
def default_low_risk_item : RiskItem :=
  { level := "LOW"
    message_en := "Weather forecast is favorable for the current stage. No extreme conditions predicted."
    message_ur := "موجودہ مرحلے کے لیے موسم کی پیشگوئی سازگار ہے۔ انتہائی حالات کی پیشگوئی نہیں۔"
    actions_en := ["Continue routine irrigation.", "Maintain standard checks."]
    actions_ur := ["معمول کی آبپاشی جاری رکھیں۔", "معیاری جانچ پڑتال برقرار رکھیں."] }

/-- The item appended for a triggered rule (`rule.get` fallbacks as in the
source). -/
def mkRiskItem (rule : ClimateRule) : RiskItem :=
  { level := rule.level
    message_en := rule.message_en.getD ""
    message_ur := rule.message_ur.getD (rule.message_en.getD "")
    actions_en := rule.actions_en.getD []
    actions_ur := rule.actions_ur.getD (rule.actions_en.getD []) }

/-- The `triggered` accumulator of `evaluate_climate_risk`: the items of all
rules of the `(crop.strip(), stage.strip())` key whose condition fires. -/
def triggeredRules (crop stage : String) (weather : Weather) : List RiskItem :=
  (rulesFor (pyStrip crop, pyStrip stage)).filterMap (fun rule =>
    if _rule_matches rule weather then some (mkRiskItem rule) else none)

/-- `evaluate_climate_risk`: evaluate all rules of the `(crop.strip(),
stage.strip())` key independently; if none triggers, return exactly the
single synthetic LOW default item. -/
def evaluate_climate_risk (crop stage : String) (weather : Weather) : List RiskItem :=
  if triggeredRules crop stage weather = [] then [default_low_risk_item]
  else triggeredRules crop stage weather

/-- `LEVEL_ORDER.get(level, 0)`. -/
def LEVEL_ORDER (s : String) : ℕ :=
  if s = "HIGH" then 3 else if s = "MEDIUM" then 2 else if s = "LOW" then 1 else 0

/-- `get_overall_level`: the first item attaining the maximal level order
(Python `max` keeps the first maximal element), `"LOW"` on an empty list. -/
def get_overall_level (triggered : List RiskItem) : String :=
  match triggered with
  | [] => "LOW"
  | x :: xs =>
    (xs.foldl (fun best y =>
      if LEVEL_ORDER best.level < LEVEL_ORDER y.level then y else best) x).level

/-! ### The reasoning loop's failure semantics (`RAG/orchestrator_agent.py`)

`process_query` runs the agent executor inside `try/except`.  The executor
(a LangChain agent over external LLM calls) is modelled as an
`Except String String` outcome parameter; the module-level
`_retrieved_context` accumulator (domain → retrieved documents) and the
`synthesize_answer` LLM fallback are likewise parameters.  A tool-calling
failure is an exception whose message contains the marker
`"Failed to call a function"` — exactly the test made by the source.
-/

/-- One retrieved document of the `_retrieved_context` accumulator. -/
structure RetrievedDoc where
  content : String
  score : ℚ
deriving DecidableEq

/-- A flattened fallback document (`{"domain", "content", "score"}`). -/
structure FallbackDoc where
  domain : String
  content : String
  score : ℚ
deriving DecidableEq

/-- The fields of `process_query`'s return dict that the failure-semantics
claims concern (timing and session metadata omitted). -/
structure TurnResult where
  status : String
  answer : String
  reasoning : String
  domains_searched : List String
deriving DecidableEq

/-- The flattening of `_retrieved_context` into `fallback_docs`. -/
def fallbackDocs (retrieved_context : List (String × List RetrievedDoc)) :
    List FallbackDoc :=
  retrieved_context.flatMap (fun p =>
    p.2.map (fun doc => FallbackDoc.mk p.1 doc.content doc.score))

/-- Is the exception a tool-calling failure?  The source tests
`"Failed to call a function" in error_message`. -/
def isToolCallFailure (error_message : String) : Bool :=
  isSubstrS "Failed to call a function" error_message

/-- `AgricultureOrchestratorAgent.process_query`, as a function of the agent
executor's outcome, the accumulated retrieved context and the fallback
synthesizer. -/
def process_query (synthesize_answer : List FallbackDoc → String → String)
    (outcome : Except String String)
    (retrieved_context : List (String × List RetrievedDoc))
    (user_query : String) : TurnResult :=
  match outcome with
  | .ok final_output =>
    { status := "success"
      answer := final_output
      reasoning := "Agent used multi-step reasoning with tool calls to gather and synthesize information"
      domains_searched :=
        if retrieved_context.isEmpty then ["multiple"]
        else retrieved_context.map (fun p => p.1) }
  | .error error_message =>
    if isToolCallFailure error_message && !retrieved_context.isEmpty then
      { status := "success"
        answer := synthesize_answer (fallbackDocs retrieved_context) user_query
        reasoning := "Fallback synthesis after tool-call failure"
        domains_searched := retrieved_context.map (fun p => p.1) }
    else
      { status := "error"
        answer := "Agent encountered an error: " ++ error_message
        reasoning := error_message
        domains_searched := [] }

/-! ## Theorems -/

/-- A nonzero `foldr max 0` over naturals is attained by a list element. -/
lemma list_foldr_max_mem (l : List ℕ) (h : l.foldr max 0 ≠ 0) : l.foldr max 0 ∈ l := by
  induction l with
  | nil => simp at h
  | cons a t ih =>
    rw [List.foldr_cons] at h ⊢
    rcases Nat.le_total a (t.foldr max 0) with hle | hge
    · rw [Nat.max_eq_right hle] at h ⊢
      exact List.mem_cons_of_mem _ (ih h)
    · rw [Nat.max_eq_left hge] at h ⊢
      exact List.mem_cons_self _ _

/-- The keys of `domain_scores` are the four domains in insertion order. -/
lemma domainScores_fst (q : String) : (domainScores q).map Prod.fst = domainNames := rfl

/-- In an association list with distinct keys, searching for the key of a
member pair finds exactly that pair. -/
lemma find?_key_of_mem {l : List (String × ℕ)} (hnd : (l.map Prod.fst).Nodup)
    {pr : String × ℕ} (hmem : pr ∈ l) :
    l.find? (fun p => p.1 == pr.1) = some pr := by
  induction l with
  | nil => cases hmem
  | cons a t ih =>
    rw [List.map_cons, List.nodup_cons] at hnd
    rcases List.mem_cons.mp hmem with heq | hmem'
    · subst heq
      exact List.find?_cons_of_pos _ (by simp)
    · have hne : ¬((a.1 == pr.1) = true) := by
        simp only [beq_iff_eq]
        intro he
        exact hnd.1 (by rw [he]; exact List.mem_map_of_mem Prod.fst hmem')
      exact (List.find?_cons_of_neg (p := fun p => p.1 == pr.1) t hne).trans (ih hnd.2 hmem')

/-- When some domain scores nonzero, the primary domain's dict lookup returns
the maximum score (the primary domain is the arg-max). -/
lemma primaryScoreOf_eq_max (q : String) (h : maxScore q ≠ 0) :
    primaryScoreOf q = maxScore q := by
  have h' : ((domainScores q).map (fun p => p.2)).foldr max 0 ≠ 0 := h
  have hmem := list_foldr_max_mem _ h'
  obtain ⟨pr, hpr, hpr2⟩ := List.mem_map.mp hmem
  have hsome : ((domainScores q).find? (fun p => p.2 == maxScore q)).isSome :=
    List.find?_isSome.mpr ⟨pr, hpr, by simp only [beq_iff_eq]; exact hpr2⟩
  obtain ⟨pr', hfind⟩ := Option.isSome_iff_exists.mp hsome
  have hval : pr'.2 = maxScore q := by simpa using List.find?_some hfind
  have hmem' : pr' ∈ domainScores q := List.mem_of_find?_eq_some hfind
  have hprim : primary_domain q = pr'.1 := by
    unfold primary_domain
    rw [show (domainScores q).find? (fun p => p.2 == maxScore q) = some pr' from hfind]
    rfl
  unfold primaryScoreOf
  rw [hprim, find?_key_of_mem (domainScores_fst q ▸ (by decide : domainNames.Nodup)) hmem']
  simpa using hval

/-- The rational comparison `score > max_score * 0.3` of the secondary-domain
filter, restated over naturals: `10 * score > 3 * max_score`. -/
lemma secondary_strict_char (q : String) :
    secondary_domainsOf q =
      ((domainScores q).filter
        (fun p => p.1 != primary_domain q && decide (3 * maxScore q < 10 * p.2))).map
        (fun p => p.1) := by
  unfold secondary_domainsOf
  congr 1
  apply List.filter_congr
  intro p _
  have hiff : ((p.2 : ℚ) > (maxScore q : ℚ) * (3 / 10)) ↔ (3 * maxScore q < 10 * p.2) := by
    rw [gt_iff_lt]
    constructor
    · intro hlt
      have h10 : ((3 * maxScore q : ℕ) : ℚ) < ((10 * p.2 : ℕ) : ℚ) := by
        push_cast
        linarith
      exact_mod_cast h10
    · intro hlt
      have h10 : ((3 * maxScore q : ℕ) : ℚ) < ((10 * p.2 : ℕ) : ℚ) := by exact_mod_cast hlt
      push_cast at h10
      linarith
  congr 1
  exact decide_eq_decide.mpr hiff

/-- C2: whenever at least one domain scores nonzero, `detect_domain` returns
confidence exactly `1` (the primary domain is the arg-max, normalized by the
maximum score), so the high-confidence branch fires and `route_to` is exactly
the singleton primary domain; the two lower-confidence routing branches are
unreachable. -/
theorem C2_confidence_saturates (query : String) (h : maxScore query ≠ 0) :
    (detect_domain query).confidence = 1 ∧
    (detect_domain query).route_to = [primary_domain query] := by
  have hps := primaryScoreOf_eq_max query h
  have hconf : confidenceOf query = 1 := by
    unfold confidenceOf
    rw [hps, div_self (by exact_mod_cast h), min_self]
  have hroute : route_toOf query = [primary_domain query] := by
    unfold route_toOf
    rw [hconf, if_pos (by norm_num : (1 : ℚ) > 7 / 10)]
  unfold detect_domain
  rw [if_neg h]
  exact ⟨hconf, by rw [hroute]; rfl⟩

/-- C2, witness: the single-keyword query "rust" scores nonzero, so the
confidence saturates at `1` and routing is the singleton primary. -/
theorem C2_confidence_saturates_witness :
    maxScore "rust" ≠ 0 ∧
    ((detect_domain "rust").confidence = 1 ∧
      (detect_domain "rust").route_to = [primary_domain "rust"]) :=
  ⟨by decide, C2_confidence_saturates "rust" (by decide)⟩

/-- C5: when no keyword or pattern of any domain matches (all domain scores
are zero), `detect_domain` returns the `general` fallback with confidence
`0`, empty secondary domains and intent keywords, and routes to the full
domain set. -/
theorem C5_general_fallback (query : String)
    (h : ∀ p ∈ domainScores query, p.2 = 0) :
    (detect_domain query).domain = "general" ∧
    (detect_domain query).confidence = 0 ∧
    (detect_domain query).secondary_domains = [] ∧
    (detect_domain query).intent_keywords = [] ∧
    (detect_domain query).route_to = ["disease", "climate", "soil", "policy"] := by
  have hm : maxScore query = 0 := by
    by_contra hm
    have h' : ((domainScores query).map (fun p => p.2)).foldr max 0 ≠ 0 := hm
    obtain ⟨pr, hpr, hpr2⟩ := List.mem_map.mp (list_foldr_max_mem _ h')
    exact hm (by rw [show maxScore query = pr.2 from hpr2.symm]; exact h pr hpr)
  unfold detect_domain
  rw [if_pos hm]
  exact ⟨rfl, rfl, rfl, rfl, rfl⟩

/-- C5, witness: the query "xyz" matches nothing. -/
theorem C5_general_fallback_witness :
    (∀ p ∈ domainScores "xyz", p.2 = 0) ∧
    ((detect_domain "xyz").domain = "general" ∧
      (detect_domain "xyz").confidence = 0 ∧
      (detect_domain "xyz").secondary_domains = [] ∧
      (detect_domain "xyz").intent_keywords = [] ∧
      (detect_domain "xyz").route_to = ["disease", "climate", "soil", "policy"]) :=
  ⟨by decide, C5_general_fallback "xyz" (by decide)⟩

/-- C10 (amended): the secondary domains are exactly the domains other than
the primary whose score is STRICTLY greater than 30% of the maximum score;
a domain scoring exactly 30% of the primary's is excluded (the source
comparison is `score > max_score * 0.3`). -/
theorem C10_secondary_strict (query : String) (h : maxScore query ≠ 0) :
    (detect_domain query).secondary_domains =
      ((domainScores query).filter
        (fun p => p.1 != primary_domain query && decide (3 * maxScore query < 10 * p.2))).map
        (fun p => p.1) := by
  unfold detect_domain
  rw [if_neg h]
  exact secondary_strict_char query

/-- C10, witness: on the query "soil" the characterization evaluates. -/
theorem C10_secondary_strict_witness :
    maxScore "soil" ≠ 0 ∧
    (detect_domain "soil").secondary_domains =
      ((domainScores "soil").filter
        (fun p => p.1 != primary_domain "soil" && decide (3 * maxScore "soil" < 10 * p.2))).map
        (fun p => p.1) :=
  ⟨by decide, C10_secondary_strict "soil" (by decide)⟩

/-- C10, counterexample to the claim as stated: on this query the disease
domain scores 10 and the climate domain scores exactly 3 = 30% of it, yet
`climate` is NOT among the secondary domains (the source's strict `>`
excludes an exact-30% tie; the float threshold `10 * 0.3` is exactly `3.0`,
so Python agrees).  The claim's "every domain scoring `>= 0.3 *
primary_score` is included" is therefore false. -/
theorem C10_counterexample :
    primary_domain "symptom pathogen fungal lesion canker necrosis blight snow wind frost"
      = "disease" ∧
    domainScores "symptom pathogen fungal lesion canker necrosis blight snow wind frost"
      = [("disease", 10), ("climate", 3), ("soil", 0), ("policy", 0)] ∧
    "climate" ∉
      (detect_domain
        "symptom pathogen fungal lesion canker necrosis blight snow wind frost").secondary_domains := by
  have hs : domainScores "symptom pathogen fungal lesion canker necrosis blight snow wind frost"
      = [("disease", 10), ("climate", 3), ("soil", 0), ("policy", 0)] := by rfl
  have hm : maxScore "symptom pathogen fungal lesion canker necrosis blight snow wind frost"
      = 10 := by
    unfold maxScore
    rw [hs]
    rfl
  have hm0 : maxScore "symptom pathogen fungal lesion canker necrosis blight snow wind frost"
      ≠ 0 := by
    rw [hm]
    decide
  have hp : primary_domain "symptom pathogen fungal lesion canker necrosis blight snow wind frost"
      = "disease" := by
    unfold primary_domain
    rw [hs, hm]
    rfl
  have hsec : (detect_domain
      "symptom pathogen fungal lesion canker necrosis blight snow wind frost").secondary_domains
      = secondary_domainsOf
        "symptom pathogen fungal lesion canker necrosis blight snow wind frost" := by
    unfold detect_domain
    rw [if_neg hm0]
  refine ⟨hp, hs, ?_⟩
  rw [hsec, secondary_strict_char, hs, hm, hp]
  decide

/-- C4: whenever no rule of the (stripped) crop/stage key fires — in
particular for keys absent from the rule table, whose rule list is empty,
and for the empty weather mapping, under which no rule can fire —
`evaluate_climate_risk` returns exactly the one synthetic LOW-severity
favorable-conditions item and never an empty list. -/
theorem C4_default_low_item :
    (∀ crop stage weather,
      (∀ rule ∈ rulesFor (pyStrip crop, pyStrip stage),
        _rule_matches rule weather = false) →
      evaluate_climate_risk crop stage weather = [default_low_risk_item]) ∧
    (∀ rule : ClimateRule, _rule_matches rule emptyWeather = false) ∧
    default_low_risk_item.level = "LOW" := by
  refine ⟨?_, ?_, rfl⟩
  · intro crop stage weather h
    have htrig : triggeredRules crop stage weather = [] := by
      unfold triggeredRules
      rw [List.filterMap_eq_nil_iff]
      intro rule hrule
      rw [h rule hrule]
      rfl
    unfold evaluate_climate_risk
    rw [htrig]
    simp
  · intro rule
    cases hc : rule.condition with
    | none => simp [_rule_matches, hc]
    | some c => cases c <;> simp [_rule_matches, hc, emptyWeather]

/-- C4, witness: the crop "Banana" has no rules at all, and the empty weather
mapping fires nothing, so the result is the single synthetic LOW item. -/
theorem C4_default_low_item_witness :
    (∀ rule ∈ rulesFor (pyStrip "Banana", pyStrip "Sowing"),
      _rule_matches rule emptyWeather = false) ∧
    evaluate_climate_risk "Banana" "Sowing" emptyWeather = [default_low_risk_item] :=
  ⟨by decide, C4_default_low_item.1 "Banana" "Sowing" emptyWeather (by decide)⟩

/-- C8: for crop Wheat, stage Flowering and weather `{temp_c: 36, humidity:
85}` both the heat rule (threshold 35) and the humidity rule (threshold 80)
fire, each yielding a HIGH item, and the overall level is HIGH. -/
theorem C8_wheat_flowering_36_85 :
    _rule_matches wheatFloweringHeatRule ⟨some 36, some 85, none, none⟩ = true ∧
    _rule_matches wheatFloweringHumidityRule ⟨some 36, some 85, none, none⟩ = true ∧
    evaluate_climate_risk "Wheat" "Flowering" ⟨some 36, some 85, none, none⟩ =
      [mkRiskItem wheatFloweringHeatRule, mkRiskItem wheatFloweringHumidityRule] ∧
    (evaluate_climate_risk "Wheat" "Flowering" ⟨some 36, some 85, none, none⟩).map
      RiskItem.level = ["HIGH", "HIGH"] ∧
    get_overall_level
      (evaluate_climate_risk "Wheat" "Flowering" ⟨some 36, some 85, none, none⟩)
      = "HIGH" := by
  have h1 : _rule_matches wheatFloweringHeatRule ⟨some 36, some 85, none, none⟩ = true := by
    simp [_rule_matches, wheatFloweringHeatRule]
    norm_num
  have h2 : _rule_matches wheatFloweringHumidityRule ⟨some 36, some 85, none, none⟩
      = true := by
    simp [_rule_matches, wheatFloweringHumidityRule]
    norm_num
  have hr : rulesFor (pyStrip "Wheat", pyStrip "Flowering") =
      [wheatFloweringHeatRule, wheatFloweringHumidityRule] := rfl
  have ht : triggeredRules "Wheat" "Flowering" ⟨some 36, some 85, none, none⟩ =
      [mkRiskItem wheatFloweringHeatRule, mkRiskItem wheatFloweringHumidityRule] := by
    unfold triggeredRules
    rw [hr]
    simp [h1, h2]
  have he : evaluate_climate_risk "Wheat" "Flowering" ⟨some 36, some 85, none, none⟩ =
      [mkRiskItem wheatFloweringHeatRule, mkRiskItem wheatFloweringHumidityRule] := by
    unfold evaluate_climate_risk
    rw [ht]
    simp
  refine ⟨h1, h2, he, ?_, ?_⟩
  · rw [he]
    rfl
  · rw [he]
    rfl

/-- C9: if the external similarity-search collaborator raises any exception,
`DomainRetriever.retrieve` returns the empty list instead of propagating it. -/
theorem C9_retrieve_swallows_errors (search : SearchFn) (r : Retriever)
    (query : String) (limit : ℕ) (msg : String)
    (h : search query r.data_type r.crop "Punjab" limit = .error msg) :
    retrieve search r query limit = [] := by
  unfold retrieve
  rw [h]

/-- A search collaborator that always raises. -/
def failingSearch : SearchFn := fun _ _ _ _ _ => .error "connection refused"

/-- C9, witness: a failing collaborator yields the empty evidence list. -/
theorem C9_retrieve_swallows_errors_witness :
    failingSearch "query" diseaseRetriever.data_type diseaseRetriever.crop "Punjab" 10
      = .error "connection refused" ∧
    retrieve failingSearch diseaseRetriever "query" 10 = [] :=
  ⟨rfl, C9_retrieve_swallows_errors failingSearch diseaseRetriever "query" 10
    "connection refused" rfl⟩

/-- C7: when the agent-execution step raises a tool-calling failure (an
exception whose message carries the marker tested by the source), the turn
falls back to direct synthesis over the accumulated evidence and reports
success whenever at least one domain already produced evidence, and reports
an error (echoing the message, fabricating nothing) when no evidence exists. -/
theorem C7_toolcall_failure_semantics
    (synthesize_answer : List FallbackDoc → String → String) (msg : String)
    (retrieved_context : List (String × List RetrievedDoc)) (user_query : String)
    (h : isToolCallFailure msg = true) :
    (retrieved_context ≠ [] →
      (process_query synthesize_answer (.error msg) retrieved_context user_query).status
        = "success" ∧
      (process_query synthesize_answer (.error msg) retrieved_context user_query).answer
        = synthesize_answer (fallbackDocs retrieved_context) user_query) ∧
    (retrieved_context = [] →
      (process_query synthesize_answer (.error msg) retrieved_context user_query).status
        = "error" ∧
      (process_query synthesize_answer (.error msg) retrieved_context user_query).answer
        = "Agent encountered an error: " ++ msg) := by
  constructor
  · intro hne
    have hne' : retrieved_context.isEmpty = false := by
      cases retrieved_context with
      | nil => exact absurd rfl hne
      | cons a t => rfl
    simp [process_query, h, hne']
  · intro heq
    subst heq
    simp [process_query, h]

/-- C7, witness: a concrete tool-calling failure message with one disease
document of evidence falls back to synthesis and succeeds; the same failure
with no evidence reports an error. -/
theorem C7_toolcall_failure_semantics_witness :
    isToolCallFailure "Failed to call a function: malformed tool invocation" = true ∧
    ((([("disease", [⟨"doc", 1 / 2⟩])] : List (String × List RetrievedDoc)) ≠ [] →
      (process_query (fun _ _ => "synthesized")
        (.error "Failed to call a function: malformed tool invocation")
        [("disease", [⟨"doc", 1 / 2⟩])] "query").status = "success" ∧
      (process_query (fun _ _ => "synthesized")
        (.error "Failed to call a function: malformed tool invocation")
        [("disease", [⟨"doc", 1 / 2⟩])] "query").answer
        = (fun _ _ => "synthesized")
            (fallbackDocs [("disease", [⟨"doc", 1 / 2⟩])]) "query") ∧
    (([("disease", [⟨"doc", 1 / 2⟩])] : List (String × List RetrievedDoc)) = [] →
      (process_query (fun _ _ => "synthesized")
        (.error "Failed to call a function: malformed tool invocation")
        [("disease", [⟨"doc", 1 / 2⟩])] "query").status = "error" ∧
      (process_query (fun _ _ => "synthesized")
        (.error "Failed to call a function: malformed tool invocation")
        [("disease", [⟨"doc", 1 / 2⟩])] "query").answer
        = "Agent encountered an error: " ++
            "Failed to call a function: malformed tool invocation")) :=
  ⟨by decide, C7_toolcall_failure_semantics (fun _ _ => "synthesized")
    "Failed to call a function: malformed tool invocation"
    [("disease", [⟨"doc", 1 / 2⟩])] "query" (by decide)⟩

/-- The combined-score order is transitive. -/
lemma byCombined_trans : ∀ a b c : String × ℚ × String,
    byCombined a b = true → byCombined b c = true → byCombined a c = true := by
  intro a b c hab hbc
  simp only [byCombined, decide_eq_true_eq] at hab hbc ⊢
  exact le_trans hab hbc

/-- The combined-score order is total. -/
lemma byCombined_total : ∀ a b : String × ℚ × String,
    (byCombined a b || byCombined b a) = true := by
  intro a b
  simp only [byCombined, Bool.or_eq_true, decide_eq_true_eq]
  exact le_total _ _

/-- C1: every candidate returned by `retrieve_from_domains` carries
`combined_score = vector_score / (keyword_overlap + 1)` when its keyword
overlap is positive and `vector_score * 2` when the overlap is zero; the
returned list is sorted ascending by combined score; ties of equal combined
score preserve the domain-iteration input order (stability); and repeated
calls with identical inputs return identical results. -/
theorem C1_orchestrator_ranking (search : SearchFn) (domains : List String)
    (query : String) (keywords : List String) (limit : ℕ) :
    (∀ e ∈ retrieve_from_domains search domains query keywords limit,
      ∃ r vs, lookupRetriever e.2.2 = some r ∧
        (e.1, vs) ∈ retrieve search r query limit ∧
        (0 < calculate_keyword_overlap r e.1 keywords →
          e.2.1 = vs / ((calculate_keyword_overlap r e.1 keywords : ℚ) + 1)) ∧
        (calculate_keyword_overlap r e.1 keywords = 0 → e.2.1 = vs * 2)) ∧
    (retrieve_from_domains search domains query keywords limit).Pairwise
      (fun a b => a.2.1 ≤ b.2.1) ∧
    (∀ a b, [a, b].Sublist (scored_candidates search domains query keywords limit) →
      a.2.1 = b.2.1 →
      [a, b].Sublist (retrieve_from_domains search domains query keywords limit)) ∧
    retrieve_from_domains search domains query keywords limit =
      retrieve_from_domains search domains query keywords limit := by
  refine ⟨?_, ?_, ?_, rfl⟩
  · intro e he
    have he' : e ∈ scored_candidates search domains query keywords limit :=
      List.mem_mergeSort.mp he
    unfold scored_candidates at he'
    obtain ⟨d, hd, he2⟩ := List.mem_flatMap.mp he'
    cases hl : lookupRetriever d with
    | none => rw [hl] at he2; cases he2
    | some r =>
      rw [hl] at he2
      obtain ⟨cv, hcv, heq⟩ := List.mem_map.mp he2
      subst heq
      refine ⟨r, cv.2, hl, hcv, ?_, ?_⟩
      · intro hov
        simp only [combined_score, if_pos hov]
      · intro hov
        simp only [combined_score, hov]
        norm_num
  · exact (List.sorted_mergeSort byCombined_trans byCombined_total _).imp
      (fun h => by simpa only [byCombined, decide_eq_true_eq] using h)
  · intro a b hsub heq
    exact List.pair_sublist_mergeSort byCombined_trans byCombined_total
      (by simp only [byCombined, decide_eq_true_eq]; exact le_of_eq heq) hsub

/-- A search collaborator returning one fixed hit, used as the C1 witness
oracle. -/
def oracleSearch : SearchFn := fun _ _ _ _ _ => .ok [("rust", 1 / 2)]

/-- C1, witness: on a concrete oracle, the single disease candidate is a
member of the output and satisfies the score formula, and a concrete
equal-score pair (disease before climate, the domain-iteration order) stays
in that order in the output. -/
theorem C1_orchestrator_ranking_witness :
    (("rust", combined_score (1 / 2) 1, "disease")
      ∈ retrieve_from_domains oracleSearch ["disease"] "rust" ["rust"] 5) ∧
    (∃ r vs,
      lookupRetriever ("rust", combined_score (1 / 2) 1, "disease").2.2 = some r ∧
      (("rust", combined_score (1 / 2) 1, "disease").1, vs)
        ∈ retrieve oracleSearch r "rust" 5 ∧
      (0 < calculate_keyword_overlap r
          ("rust", combined_score (1 / 2) 1, "disease").1 ["rust"] →
        ("rust", combined_score (1 / 2) 1, "disease").2.1
          = vs / ((calculate_keyword_overlap r
              ("rust", combined_score (1 / 2) 1, "disease").1 ["rust"] : ℚ) + 1)) ∧
      (calculate_keyword_overlap r
          ("rust", combined_score (1 / 2) 1, "disease").1 ["rust"] = 0 →
        ("rust", combined_score (1 / 2) 1, "disease").2.1 = vs * 2)) ∧
    ([("rust", combined_score (1 / 2) 1, "disease"),
      ("rust", combined_score (1 / 2) 1, "climate")].Sublist
        (scored_candidates oracleSearch ["disease", "climate"] "rust" ["rust"] 5)) ∧
    ([("rust", combined_score (1 / 2) 1, "disease"),
      ("rust", combined_score (1 / 2) 1, "climate")].Sublist
        (retrieve_from_domains oracleSearch ["disease", "climate"] "rust" ["rust"] 5)) := by
  have hres1 : retrieve_from_domains oracleSearch ["disease"] "rust" ["rust"] 5 =
      [("rust", combined_score (1 / 2) 1, "disease")] := by
    unfold retrieve_from_domains
    rw [show scored_candidates oracleSearch ["disease"] "rust" ["rust"] 5 =
      [("rust", combined_score (1 / 2) 1, "disease")] from rfl]
    simp
  have hmem : ("rust", combined_score (1 / 2) 1, "disease")
      ∈ retrieve_from_domains oracleSearch ["disease"] "rust" ["rust"] 5 := by
    rw [hres1]
    exact List.mem_singleton.mpr rfl
  have hsub : [("rust", combined_score (1 / 2) 1, "disease"),
      ("rust", combined_score (1 / 2) 1, "climate")].Sublist
        (scored_candidates oracleSearch ["disease", "climate"] "rust" ["rust"] 5) := by
    rw [show scored_candidates oracleSearch ["disease", "climate"] "rust" ["rust"] 5 =
      [("rust", combined_score (1 / 2) 1, "disease"),
       ("rust", combined_score (1 / 2) 1, "climate")] from rfl]
  exact ⟨hmem,
    (C1_orchestrator_ranking oracleSearch ["disease"] "rust" ["rust"] 5).1 _ hmem,
    hsub,
    (C1_orchestrator_ranking oracleSearch ["disease", "climate"] "rust" ["rust"] 5).2.2.1
      _ _ hsub rfl⟩

/-- C3: under the non-degenerate temperature ranges that keep the Python
division `deviation / temp_range` defined, a candidate disease record
appears in `match_diseases_by_conditions` exactly when its stage and
days-after-sowing checks pass, its overall score (the 50/50 average of the
two sub-scores) is at least 50, and each sub-score is at least 30.  In
particular a candidate with temperature sub-score 80 and humidity sub-score
10 is excluded (its average 45 already misses the 50 bar and its humidity
sub-score misses the 30 floor), and a candidate whose average reaches 50
but with one sub-score below 30 is excluded. -/
theorem C3_joint_and_gate (ctx : FarmerContext) (kb : List DiseaseRecord)
    (_hw : ∀ d ∈ kb, d.favorable_conditions.temperature_max
      ≠ d.favorable_conditions.temperature_min) :
    (∀ e, e ∈ match_diseases_by_conditions ctx kb ↔
      ∃ d ∈ kb, (diseaseWindowOpen ctx d ∧ diseaseGate ctx d) ∧
        e = mkMatchedDisease ctx d) ∧
    (∀ d ∈ kb, temp_score ctx d.favorable_conditions = 80 →
      humidity_score ctx d.favorable_conditions = 10 →
      mkMatchedDisease ctx d ∉ match_diseases_by_conditions ctx kb) ∧
    (∀ d ∈ kb, 50 ≤ overall_score ctx d.favorable_conditions →
      (temp_score ctx d.favorable_conditions < 30 ∨
        humidity_score ctx d.favorable_conditions < 30) →
      mkMatchedDisease ctx d ∉ match_diseases_by_conditions ctx kb) := by
  have hchar : ∀ e, e ∈ match_diseases_by_conditions ctx kb ↔
      ∃ d ∈ kb, (diseaseWindowOpen ctx d ∧ diseaseGate ctx d) ∧
        e = mkMatchedDisease ctx d := by
    intro e
    unfold match_diseases_by_conditions
    rw [List.mem_mergeSort, List.mem_filterMap]
    constructor
    · rintro ⟨d, hd, hopt⟩
      by_cases hc : diseaseWindowOpen ctx d ∧ diseaseGate ctx d
      · rw [if_pos hc] at hopt
        exact ⟨d, hd, hc, (Option.some.inj hopt).symm⟩
      · rw [if_neg hc] at hopt
        cases hopt
    · rintro ⟨d, hd, hc, rfl⟩
      exact ⟨d, hd, by rw [if_pos hc]⟩
  refine ⟨hchar, ?_, ?_⟩
  · intro d hd h80 h10 hmem
    obtain ⟨d', hd', ⟨hwo', hg'⟩, heq⟩ := (hchar _).mp hmem
    unfold diseaseGate at hg'
    have hh : humidity_score ctx d.favorable_conditions
        = humidity_score ctx d'.favorable_conditions := by
      have hcg := congrArg MatchedDisease.humidity_match heq
      simpa [mkMatchedDisease] using hcg
    have h30 := hg'.2.2
    rw [← hh, h10] at h30
    norm_num at h30
  · intro d hd hover hbad hmem
    obtain ⟨d', hd', ⟨hwo', hg'⟩, heq⟩ := (hchar _).mp hmem
    unfold diseaseGate at hg'
    rcases hbad with hts | hhs
    · have ht : temp_score ctx d.favorable_conditions
          = temp_score ctx d'.favorable_conditions := by
        have hcg := congrArg MatchedDisease.temp_match heq
        simpa [mkMatchedDisease] using hcg
      have h30 := hg'.2.1
      rw [← ht] at h30
      linarith
    · have hh : humidity_score ctx d.favorable_conditions
          = humidity_score ctx d'.favorable_conditions := by
        have hcg := congrArg MatchedDisease.humidity_match heq
        simpa [mkMatchedDisease] using hcg
      have h30 := hg'.2.2
      rw [← hh] at h30
      linarith

/-- Farmer context of the C3 witness: 30 °C, 40% humidity, Vegetative, day 40. -/
def ctxW : FarmerContext := ⟨30, 40, "Vegetative", 40⟩

/-- Candidate record of the C3 witness, tuned so the temperature sub-score is
exactly 80 and the humidity sub-score exactly 10 at `ctxW`. -/
def dW : DiseaseRecord :=
  { disease_name := "Test Disease", disease_id := "TD-1",
    affected_stages := ["Vegetative"], vulnerable_days_after_sowing := (30, 50),
    favorable_conditions :=
      { temperature_min := 0, temperature_max := 100,
        temperature_optimal := 50, humidity_min := 60 },
    climate_triggers := [], symptoms := [], management := ⟨[]⟩,
    severity_impact := "", source := "" }

/-- C3, witness: the 80/10 candidate is excluded from the hybrid results. -/
theorem C3_joint_and_gate_witness :
    (∀ d ∈ [dW], d.favorable_conditions.temperature_max
      ≠ d.favorable_conditions.temperature_min) ∧
    dW ∈ [dW] ∧
    temp_score ctxW dW.favorable_conditions = 80 ∧
    humidity_score ctxW dW.favorable_conditions = 10 ∧
    mkMatchedDisease ctxW dW ∉ match_diseases_by_conditions ctxW [dW] := by
  have h80 : temp_score ctxW dW.favorable_conditions = 80 := by
    rw [temp_score]
    norm_num [ctxW, dW]
  have h10 : humidity_score ctxW dW.favorable_conditions = 10 := by
    rw [humidity_score]
    norm_num [ctxW, dW]
  exact ⟨by norm_num [dW], List.mem_singleton.mpr rfl, h80, h10,
    (C3_joint_and_gate ctxW [dW] (by norm_num [dW])).2.1 dW
      (List.mem_singleton.mpr rfl) h80 h10⟩

/-- C6: in the hybrid assessment, each group (disease, climate)
independently reports level HIGH when its top candidate scores at least 70,
MEDIUM at least 40, LOW otherwise — LOW also with no candidates — and
confidence equal to the top score over 100, or 0 with no candidates. -/
theorem C6_hybrid_group_levels (ctx : FarmerContext) (dkb : List DiseaseRecord)
    (ckb : List ClimateRiskRecord) (rag : Option (List (String × ℚ))) :
    ((get_risk_assessment_hybrid ctx dkb ckb rag).disease_level =
      match (match_diseases_by_conditions ctx dkb).head? with
      | none => "LOW"
      | some d => if (70 : ℚ) ≤ d.risk_score then "HIGH"
                  else if (40 : ℚ) ≤ d.risk_score then "MEDIUM" else "LOW") ∧
    ((get_risk_assessment_hybrid ctx dkb ckb rag).disease_confidence =
      match (match_diseases_by_conditions ctx dkb).head? with
      | none => 0
      | some d => d.risk_score / 100) ∧
    ((get_risk_assessment_hybrid ctx dkb ckb rag).climate_level =
      match (match_climate_risks_by_conditions ctx ckb).head? with
      | none => "LOW"
      | some r => if (70 : ℚ) ≤ r.risk_score then "HIGH"
                  else if (40 : ℚ) ≤ r.risk_score then "MEDIUM" else "LOW") ∧
    ((get_risk_assessment_hybrid ctx dkb ckb rag).climate_confidence =
      match (match_climate_risks_by_conditions ctx ckb).head? with
      | none => 0
      | some r => r.risk_score / 100) := by
  refine ⟨?_, ?_, ?_, ?_⟩ <;>
    simp only [get_risk_assessment_hybrid]
  · cases hh : (match_diseases_by_conditions ctx dkb).head? <;>
      simp [groupLevel, hh]
  · cases hh : (match_diseases_by_conditions ctx dkb).head? <;>
      simp [groupConfidence, hh]
  · cases hh : (match_climate_risks_by_conditions ctx ckb).head? <;>
      simp [groupLevel, hh]
  · cases hh : (match_climate_risks_by_conditions ctx ckb).head? <;>
      simp [groupConfidence, hh]
